import Mathlib

/-!
Verification of `analyze-block-production.py`.

The script connects to a PostgreSQL archive database and runs one SQL
query over the `blocks` table:

  SELECT DATE(to_timestamp(timestamp::bigint / 1000)) as date,
         COUNT(*) as blocks_per_day,
         COUNT(DISTINCT creator_id) as unique_producers
  FROM blocks
  WHERE timestamp > extract(epoch from now() - interval '30 days') * 1000
  GROUP BY date ORDER BY date;

then prints the resulting data frame and plots `blocks_per_day`.

We embed the query as a pure function over an explicit store (the list
of rows of the `blocks` table) and an explicit execution time `asOfMs`
(milliseconds since epoch, standing for `now()`), and the script's
control flow as a function from the success/failure of its three
external calls (connect, query, plot) to an outcome record (events on
the database connection, data printed to stdout, final result).
-/

namespace BlockProduction

/-- A row of the `blocks` table, restricted to the columns the query
reads: `timestamp` (milliseconds since epoch, non-negative) and
`creator_id` (nullable; `none` models SQL NULL). -/
structure BlockRow where
  timestamp : Nat
  creator_id : Option Nat
deriving DecidableEq, Repr

/-- Model of PostgreSQL `DATE(to_timestamp(s))` for a non-negative whole
number of seconds `s`, with the session time zone taken as UTC: the day
number since epoch, `s / 86400`. -/
def dateOfSeconds (s : Nat) : Nat := s / 86400

/-- The date assigned to a millisecond timestamp by
`DATE(to_timestamp(timestamp::bigint / 1000))`: bigint division by 1000
(truncating) and then conversion of the seconds value to a date. -/
def dateOfMs (ms : Nat) : Nat := dateOfSeconds (ms / 1000)

/-- The date of a row, as computed by the query's `DATE(...)` column. -/
def rowDate (r : BlockRow) : Nat := dateOfMs r.timestamp

/-- Thirty days in milliseconds: the value of
`extract(epoch from interval '30 days') * 1000`. -/
def windowMs : Int := 30 * 24 * 60 * 60 * 1000

/-- The WHERE clause of the query:
`timestamp > extract(epoch from now() - interval '30 days') * 1000`,
with `now()` supplied as `asOfMs` milliseconds since epoch. The
comparison is in `Int` because the SQL bound `asOf - 30 days` may be
negative. Note the clause has only this lower bound. -/
def inWindow (asOfMs : Nat) (r : BlockRow) : Bool :=
  decide ((asOfMs : Int) - windowMs < (r.timestamp : Int))

/-- The largest date occurring among a list of rows (0 for no rows). -/
def maxDate (rows : List BlockRow) : Nat :=
  (rows.map rowDate).foldr max 0

/-- The dates present among `rows`, each exactly once, in ascending
order: the semantics of `GROUP BY date ORDER BY date` applied to the
filtered rows (one group per distinct date value, ascending). -/
def presentDates (rows : List BlockRow) : List Nat :=
  (List.range (maxDate rows + 1)).filter (fun d => rows.any (fun r => rowDate r == d))

/-- `COUNT(*)` for the group of `rows` with date `d`. -/
def blocksOn (rows : List BlockRow) (d : Nat) : Nat :=
  (rows.filter (fun r => rowDate r == d)).length

/-- `COUNT(DISTINCT creator_id)` for the group of `rows` with date `d`:
SQL `COUNT(DISTINCT c)` counts the distinct non-NULL values, so NULL
identifiers (`none`) are dropped before deduplication. -/
def uniqueProducersOn (rows : List BlockRow) (d : Nat) : Nat :=
  (((rows.filter (fun r => rowDate r == d)).filterMap (fun r => r.creator_id)).dedup).length

/-- One output row of the query: the data frame's columns. -/
structure DailyProductionRecord where
  date : Nat
  blocks_per_day : Nat
  unique_producers : Nat
deriving DecidableEq, Repr

/-- The full query: filter the store by the 30-day lower bound, group
the surviving rows by date, and emit one record per present date in
ascending date order with the group's row count and distinct
non-NULL producer count. -/
def fetchDailyProduction (asOfMs : Nat) (store : List BlockRow) : List DailyProductionRecord :=
  let rows := store.filter (inWindow asOfMs)
  (presentDates rows).map (fun d => ⟨d, blocksOn rows d, uniqueProducersOn rows d⟩)

/-! ## Helper lemmas about the query -/

theorem le_foldr_max (l : List Nat) (a : Nat) (h : a ∈ l) : a ≤ l.foldr max 0 := by
  induction l with
  | nil => cases h
  | cons x xs ih =>
    rcases List.mem_cons.mp h with rfl | hx
    · exact le_max_left _ _
    · exact le_trans (ih hx) (le_max_right _ _)

theorem rowDate_le_maxDate {rows : List BlockRow} {r : BlockRow} (h : r ∈ rows) :
    rowDate r ≤ maxDate rows :=
  le_foldr_max _ _ (List.mem_map_of_mem rowDate h)

theorem mem_presentDates {rows : List BlockRow} {d : Nat} :
    d ∈ presentDates rows ↔ ∃ r ∈ rows, rowDate r = d := by
  unfold presentDates
  rw [List.mem_filter, List.mem_range, List.any_eq_true]
  constructor
  · rintro ⟨-, r, hr, hd⟩
    exact ⟨r, hr, by simpa using hd⟩
  · rintro ⟨r, hr, hd⟩
    refine ⟨Nat.lt_succ_of_le (hd ▸ rowDate_le_maxDate hr), r, hr, by simpa using hd⟩

theorem presentDates_sorted (rows : List BlockRow) :
    List.Sorted (· < ·) (presentDates rows) :=
  (List.pairwise_lt_range _).sublist (List.filter_sublist _)

theorem fetch_map_date (asOfMs : Nat) (store : List BlockRow) :
    (fetchDailyProduction asOfMs store).map DailyProductionRecord.date
      = presentDates (store.filter (inWindow asOfMs)) := by
  unfold fetchDailyProduction
  rw [List.map_map]
  exact List.map_id _

theorem mem_fetch_iff (asOfMs : Nat) (store : List BlockRow) (rec : DailyProductionRecord) :
    rec ∈ fetchDailyProduction asOfMs store ↔
      rec.date ∈ presentDates (store.filter (inWindow asOfMs)) ∧
      rec.blocks_per_day = blocksOn (store.filter (inWindow asOfMs)) rec.date ∧
      rec.unique_producers = uniqueProducersOn (store.filter (inWindow asOfMs)) rec.date := by
  unfold fetchDailyProduction
  rw [List.mem_map]
  constructor
  · rintro ⟨d, hd, rfl⟩
    exact ⟨hd, rfl, rfl⟩
  · rcases rec with ⟨d, b, u⟩
    rintro ⟨hd, hb, hu⟩
    simp only at hd hb hu
    exact ⟨d, hd, by simp [hb, hu]⟩

/-! ## The script's control flow

The script is a straight line:
`psycopg2.connect(...)` → `pd.read_sql_query(query, conn)` → `print(df)`
→ `df.plot(...)`, `plt.title(...)`, `plt.show()`.
An uncaught Python exception in any step aborts the rest of the script
with a non-zero process exit; the script installs no handler and calls
no `conn.close()`. We model each external call by a boolean saying
whether it succeeds, and record the connection/store events performed,
the data frames printed to stdout, and the final result. -/

/-- Observable actions on the database connection and output devices. -/
inductive Event where
  | openConn
  | closeConn
  | readBlocks
  | writeBlocks
  | printStdout
  | attemptPlot
deriving DecidableEq, Repr

/-- How a run ends, mirroring the uncaught Python exception (if any). -/
inductive ScriptError where
  | connectionError
  | queryError
  | presentationError
deriving DecidableEq, Repr

deriving instance DecidableEq for Except

/-- The observable outcome of one run of the script. -/
structure RunOutcome where
  events : List Event
  printed : List (List DailyProductionRecord)
  result : Except ScriptError Unit
deriving DecidableEq, Repr

/-- Line-by-line model of the script. `connectOk` is whether
`psycopg2.connect` succeeds (reachable host, accepted credentials),
`queryOk` whether `pd.read_sql_query` succeeds, `plotOk` whether
`df.plot`/`plt.show` succeeds. A failing step raises, so nothing after
it runs; `print(df)` sits between the query and the plotting calls. -/
def runScript (connectOk queryOk plotOk : Bool) (asOfMs : Nat) (store : List BlockRow) :
    RunOutcome :=
  if connectOk = false then
    { events := [], printed := [], result := .error .connectionError }
  else if queryOk = false then
    { events := [.openConn], printed := [], result := .error .queryError }
  else
    let df := fetchDailyProduction asOfMs store
    if plotOk = false then
      { events := [.openConn, .readBlocks, .printStdout, .attemptPlot],
        printed := [df], result := .error .presentationError }
    else
      { events := [.openConn, .readBlocks, .printStdout, .attemptPlot],
        printed := [df], result := .ok () }

/-- The process exit code of a run: 0 on success, 1 when an uncaught
exception terminates the interpreter. -/
def exitCode (o : RunOutcome) : Nat :=
  match o.result with
  | .ok _ => 0
  | .error _ => 1

/-- A row of the date-`d` group has a positive row count. -/
theorem blocksOn_pos {rows : List BlockRow} {r : BlockRow} {d : Nat}
    (hr : r ∈ rows) (hd : rowDate r = d) : 1 ≤ blocksOn rows d := by
  unfold blocksOn
  exact List.length_pos_of_mem (List.mem_filter.mpr ⟨hr, by simp [hd]⟩)

/-! ## Claim theorems -/

/-- Claim C1, counterexample: the WHERE clause has no upper bound, so a
row whose timestamp lies after `asOf` — outside the window
`[asOf − 30 days, asOf]` — is aggregated. Here `asOf` is day 100
(8640000000 ms) and the store holds one row on day 101 (8726400000 ms),
strictly after `asOf`; the claim says such a record never appears, yet
the returned sequence reports day 101. -/
theorem c1_future_row_aggregated :
    ((8640000000 : Nat) : Int) < ((8726400000 : Nat) : Int) ∧
    fetchDailyProduction 8640000000 [⟨8726400000, some 1⟩] = [⟨101, 1, 1⟩] := by
  decide

/-- Claim C1, amended: a date appears in the result of
`fetchDailyProduction` iff the store has a row of that date whose
millisecond timestamp is strictly greater than `asOf − 30 days`; the
query imposes no upper bound, so rows later than `asOf` also qualify. -/
theorem fetch_aggregates_iff_after_lower_bound (asOfMs : Nat) (store : List BlockRow)
    (d : Nat) :
    d ∈ (fetchDailyProduction asOfMs store).map DailyProductionRecord.date ↔
      ∃ r ∈ store,
        (asOfMs : Int) - 30 * 24 * 60 * 60 * 1000 < (r.timestamp : Int) ∧ rowDate r = d := by
  rw [fetch_map_date, mem_presentDates]
  constructor
  · rintro ⟨r, hr, hd⟩
    rw [List.mem_filter] at hr
    exact ⟨r, hr.1, by simpa [inWindow, windowMs] using hr.2, hd⟩
  · rintro ⟨r, hr, hts, hd⟩
    exact ⟨r, List.mem_filter.mpr ⟨hr, by simpa [inWindow, windowMs] using hts⟩, hd⟩

/-- Claim C1, witness for the amended statement at a concrete input. -/
theorem fetch_aggregates_iff_witness :
    (101 : Nat) ∈ (fetchDailyProduction 8640000000
      [⟨8726400000, some 1⟩]).map DailyProductionRecord.date :=
  (fetch_aggregates_iff_after_lower_bound 8640000000 [⟨8726400000, some 1⟩] 101).mpr
    ⟨⟨8726400000, some 1⟩, by decide, by decide, by decide⟩

/-- Claim C2: for every store and execution time, the returned sequence
is sorted strictly ascending by date and has no duplicate dates. -/
theorem fetch_dates_sorted_nodup (asOfMs : Nat) (store : List BlockRow) :
    List.Sorted (· < ·) ((fetchDailyProduction asOfMs store).map DailyProductionRecord.date) ∧
    ((fetchDailyProduction asOfMs store).map DailyProductionRecord.date).Nodup := by
  rw [fetch_map_date]
  exact ⟨presentDates_sorted _, (presentDates_sorted _).nodup⟩

/-- Claim C3: with 3 in-window rows on day 100 (producers 1, 1, 2) and
1 in-window row on day 101 (producer 3), queried as of the start of day
101, the result is exactly (100, 3, 2) then (101, 1, 1). -/
theorem fetch_concrete_scenario :
    fetchDailyProduction 8726400000
      [⟨8640000000, some 1⟩, ⟨8640000001, some 1⟩, ⟨8640000002, some 2⟩,
       ⟨8726400000, some 3⟩]
      = [⟨100, 3, 2⟩, ⟨101, 1, 1⟩] := by
  decide

/-- Claim C4: every returned record has
`unique_producers ≤ blocks_per_day` — a distinct count over a group
cannot exceed the group's size. -/
theorem fetch_unique_le_blocks (asOfMs : Nat) (store : List BlockRow)
    (rec : DailyProductionRecord) (h : rec ∈ fetchDailyProduction asOfMs store) :
    rec.unique_producers ≤ rec.blocks_per_day := by
  rw [mem_fetch_iff] at h
  rcases h with ⟨-, hb, hu⟩
  rw [hb, hu]
  unfold uniqueProducersOn blocksOn
  exact le_trans (List.dedup_sublist _).length_le (List.length_filterMap_le _ _)

/-- Claim C4, witness at a concrete input. -/
theorem fetch_unique_le_blocks_witness :
    (⟨0, 2, 1⟩ : DailyProductionRecord).unique_producers
      ≤ (⟨0, 2, 1⟩ : DailyProductionRecord).blocks_per_day :=
  fetch_unique_le_blocks 0 [⟨0, some 1⟩, ⟨999, some 1⟩] ⟨0, 2, 1⟩ (by decide)

/-- Claim C5: every returned record has `blocks_per_day ≥ 1`, and a
date with no qualifying row is absent from the returned sequence. -/
theorem fetch_no_zero_records (asOfMs : Nat) (store : List BlockRow) :
    (∀ rec ∈ fetchDailyProduction asOfMs store, 1 ≤ rec.blocks_per_day) ∧
    ∀ d : Nat, (∀ r ∈ store, inWindow asOfMs r = true → rowDate r ≠ d) →
      d ∉ (fetchDailyProduction asOfMs store).map DailyProductionRecord.date := by
  constructor
  · intro rec h
    rw [mem_fetch_iff] at h
    rcases h with ⟨hd, hb, -⟩
    rcases mem_presentDates.mp hd with ⟨r, hr, hrd⟩
    exact hb ▸ blocksOn_pos hr hrd
  · intro d hnone hd
    rw [fetch_map_date, mem_presentDates] at hd
    rcases hd with ⟨r, hr, hrd⟩
    rw [List.mem_filter] at hr
    exact hnone r hr.1 hr.2 hrd

/-- Claim C5, witness: day 5 has no qualifying row in a store holding
only a day-0 row, so 5 is absent from the result. -/
theorem fetch_no_zero_records_witness :
    (5 : Nat) ∉ (fetchDailyProduction 0 [⟨0, some 1⟩]).map DailyProductionRecord.date :=
  (fetch_no_zero_records 0 [⟨0, some 1⟩]).2 5 (by decide)

/-- Claim C6: the date of a row is obtained by truncating its
millisecond timestamp with integer division by 1000 and converting the
resulting seconds to a date: any sub-second remainder `r < 1000` is
discarded, never rounded up, and in particular 999 ms falls on the same
date as 0 ms. -/
theorem rowDate_truncates_ms (s r : Nat) (c : Option Nat) (h : r < 1000) :
    rowDate ⟨1000 * s + r, c⟩ = dateOfSeconds s ∧ dateOfMs 999 = dateOfMs 0 := by
  refine ⟨?_, by decide⟩
  unfold rowDate dateOfMs
  rw [Nat.mul_add_div (by norm_num), Nat.div_eq_of_lt h, Nat.add_zero]

/-- Claim C6, witness at timestamp 999 ms. -/
theorem rowDate_truncates_ms_witness :
    rowDate ⟨1000 * 0 + 999, none⟩ = dateOfSeconds 0 ∧ dateOfMs 999 = dateOfMs 0 :=
  rowDate_truncates_ms 0 999 none (by decide)

/-- Claim C7: when the connection step fails (unreachable host or
rejected credentials), the run ends with a ConnectionError and a
non-zero exit code, and nothing was printed: the connection step comes
before any output. -/
theorem connect_failure_no_output (queryOk plotOk : Bool) (asOfMs : Nat)
    (store : List BlockRow) :
    (runScript false queryOk plotOk asOfMs store).printed = [] ∧
    (runScript false queryOk plotOk asOfMs store).result = .error .connectionError ∧
    exitCode (runScript false queryOk plotOk asOfMs store) ≠ 0 := by
  simp [runScript, exitCode]

/-- Claim C8: whenever the run reaches the presentation phase, the full
table is printed to stdout before plotting is attempted (`printStdout`
precedes `attemptPlot` in the event list), so a plotting failure leaves
the table already printed: with `plotOk = false` the printed output
still holds the full table while the plotting failure is reported as a
PresentationError. -/
theorem print_precedes_plot (plotOk : Bool) (asOfMs : Nat) (store : List BlockRow) :
    (runScript true true plotOk asOfMs store).printed
      = [fetchDailyProduction asOfMs store] ∧
    (runScript true true plotOk asOfMs store).events
      = [.openConn, .readBlocks, .printStdout, .attemptPlot] ∧
    (runScript true true false asOfMs store).printed
      = [fetchDailyProduction asOfMs store] ∧
    (runScript true true false asOfMs store).result = .error .presentationError := by
  cases plotOk <;> simp [runScript]

/-- Claim C9, counterexample: on the normal exit path the script opens
the connection and never closes it — there is no `conn.close()` in the
source — refuting "closes that connection on every exit path". -/
theorem conn_never_closed :
    Event.closeConn ∉ (runScript true true true 0 []).events ∧
    (runScript true true true 0 []).events
      = [.openConn, .readBlocks, .printStdout, .attemptPlot] := by
  decide

/-- Claim C9, amended: each run opens at most one connection (exactly
one when the store accepts the connection), performs no writes, and
never explicitly closes the connection on any exit path; release is
left to interpreter shutdown. -/
theorem conn_usage (c q p : Bool) (asOfMs : Nat) (store : List BlockRow) :
    (runScript c q p asOfMs store).events.count .openConn ≤ 1 ∧
    (c = true → (runScript c q p asOfMs store).events.count .openConn = 1) ∧
    Event.writeBlocks ∉ (runScript c q p asOfMs store).events ∧
    Event.closeConn ∉ (runScript c q p asOfMs store).events := by
  cases c <;> cases q <;> cases p <;> simp [runScript]

/-- Claim C9, witness for the amended statement: a fully successful run
opens exactly one connection. -/
theorem conn_usage_witness :
    (runScript true true true 0 []).events.count .openConn = 1 :=
  (conn_usage true true true 0 []).2.1 rfl

/-- Claim C10: rows with a NULL `creator_id` count toward
`blocks_per_day` but not `unique_producers`: if a date has at least one
qualifying row and every qualifying row of that date has a NULL
producer, the result holds a record for that date with
`blocks_per_day ≥ 1` and `unique_producers = 0`. -/
theorem null_producers_not_counted (asOfMs : Nat) (store : List BlockRow) (d : Nat)
    (hex : ∃ r ∈ store, inWindow asOfMs r = true ∧ rowDate r = d)
    (hnull : ∀ r ∈ store, inWindow asOfMs r = true → rowDate r = d → r.creator_id = none) :
    ∃ rec ∈ fetchDailyProduction asOfMs store,
      rec.date = d ∧ 1 ≤ rec.blocks_per_day ∧ rec.unique_producers = 0 := by
  rcases hex with ⟨r, hr, hin, hrd⟩
  have hrf : r ∈ store.filter (inWindow asOfMs) := List.mem_filter.mpr ⟨hr, hin⟩
  have hmem : d ∈ presentDates (store.filter (inWindow asOfMs)) :=
    mem_presentDates.mpr ⟨r, hrf, hrd⟩
  refine ⟨⟨d, blocksOn (store.filter (inWindow asOfMs)) d,
      uniqueProducersOn (store.filter (inWindow asOfMs)) d⟩,
    (mem_fetch_iff _ _ _).mpr ⟨hmem, rfl, rfl⟩, rfl, blocksOn_pos hrf hrd, ?_⟩
  unfold uniqueProducersOn
  have hnil :
      ((store.filter (inWindow asOfMs)).filter (fun r => rowDate r == d)).filterMap
        (fun r => r.creator_id) = [] := by
    rw [List.filterMap_eq_nil_iff]
    intro a ha
    rw [List.mem_filter, List.mem_filter] at ha
    exact hnull a ha.1.1 ha.1.2 (by simpa using ha.2)
  rw [hnil]
  rfl

/-- Claim C10, witness: a store whose only row has a NULL producer. -/
theorem null_producers_not_counted_witness :
    ∃ rec ∈ fetchDailyProduction 0 [⟨0, none⟩],
      rec.date = 0 ∧ 1 ≤ rec.blocks_per_day ∧ rec.unique_producers = 0 :=
  null_producers_not_counted 0 [⟨0, none⟩] 0
    ⟨⟨0, none⟩, by decide, by decide, by decide⟩ (by decide)

end BlockProduction
